import Mathlib

/-!
A shallow embedding of the pull-diagnostics orchestration engine
(`helix-core/src/diagnostic.rs` and `helix-term/src/handlers/diagnostics.rs`),
together with theorems settling the specification's claims about it.

Machine integers of the source (slotmap keys, delays in milliseconds) are
modelled as `Nat`; opaque protocol payloads (the items of a diagnostic
report, `serde_json::Value` blobs) are modelled by small concrete types that
the embedded code passes through without inspecting, exactly as the source
does.
-/

namespace HelixPull

/-! ## Diagnostic model — `src/helix-core/src/diagnostic.rs` -/

/-- `Severity` (diagnostic.rs lines 10-15), ordered `Hint < Info < Warning < Error`. -/
inductive Severity
  | Hint
  | Info
  | Warning
  | Error
deriving DecidableEq, Repr

/-- `impl Default for Severity` (diagnostic.rs lines 17-21): the type default is `Hint`. -/
def Severity.default : Severity := Severity.Hint

/-- `NumberOrString` (diagnostic.rs lines 23-27). -/
inductive NumberOrString
  | Number (n : Int)
  | String (s : String)
deriving DecidableEq, Repr

/-- `DiagnosticTag` (diagnostic.rs lines 29-33). -/
inductive DiagnosticTag
  | Unnecessary
  | Deprecated
deriving DecidableEq, Repr

/-- `LanguageServerId` (diagnostic.rs lines 133-135): an opaque slotmap key,
modelled as a natural number identity. -/
abbrev LanguageServerId := Nat

/-- `DiagnosticProvider` (diagnostic.rs lines 54-61): single variant `Lsp`. -/
inductive DiagnosticProvider
  | Lsp (server_id : LanguageServerId) (identifier : Option String)
deriving DecidableEq, Repr

/-- `DiagnosticProvider::from_server_id` (diagnostic.rs lines 64-69). -/
def DiagnosticProvider.from_server_id (server_id : LanguageServerId) : DiagnosticProvider :=
  DiagnosticProvider.Lsp server_id none

/-- `DiagnosticProvider::from_server_and_identifier` (diagnostic.rs lines 71-79). -/
def DiagnosticProvider.from_server_and_identifier (server_id : LanguageServerId)
    (identifier : Option String) : DiagnosticProvider :=
  DiagnosticProvider.Lsp server_id identifier

/-- `DiagnosticProvider::server_id` (diagnostic.rs lines 81-88). -/
def DiagnosticProvider.server_id : DiagnosticProvider → LanguageServerId
  | DiagnosticProvider.Lsp server_id _ => server_id

/-- `DiagnosticProvider::has_server_id` (diagnostic.rs lines 90-97). -/
def DiagnosticProvider.has_server_id (p : DiagnosticProvider)
    (server_id : LanguageServerId) : Bool :=
  match p with
  | DiagnosticProvider.Lsp id _ => server_id == id

/-- `DiagnosticProvider::equals` (diagnostic.rs lines 99-115): both the
identifier and the server id must match. -/
def DiagnosticProvider.equals (p other : DiagnosticProvider) : Bool :=
  match other, p with
  | DiagnosticProvider.Lsp other_server_id other_identifier,
    DiagnosticProvider.Lsp server_id identifier =>
    identifier == other_identifier && server_id == other_server_id

/-- `helix_stdx::range::Range` as used by the diagnostic record: a start/end
pair in the document's coordinate space (`end` is a reserved word in Lean,
hence `stop`). -/
structure Range where
  start : Nat
  stop : Nat
deriving DecidableEq, Repr

/-- `Diagnostic` (diagnostic.rs lines 36-51).  The `data` payload
(`serde_json::Value`) is opaque to the whole core and modelled as a string. -/
structure Diagnostic where
  range : Range
  ends_at_word : Bool
  starts_at_word : Bool
  zero_width : Bool
  line : Nat
  message : String
  severity : Option Severity
  code : Option NumberOrString
  provider : DiagnosticProvider
  tags : List DiagnosticTag
  source : Option String
  data : Option String
deriving DecidableEq, Repr

/-- `Diagnostic::severity` (diagnostic.rs lines 143-148), the accessor:
`self.severity.unwrap_or(Severity::Warning)`.  Named with a prime because the
field of the same name exists. -/
def Diagnostic.severity' (d : Diagnostic) : Severity :=
  d.severity.getD Severity.Warning

/-! ## LSP protocol shapes

Shapes of the external `lsp-types` crate exactly as consumed by
`handlers/diagnostics.rs` and described in spec section 6: a report is
Full (items, result id, optional related documents) or Unchanged (result id);
a request may instead fail with an error optionally carrying a typed
cancellation payload. -/

/-- Document uris, opaque identities compared for equality only. -/
abbrev Uri := String

/-- `DocumentId`, an opaque slotmap key. -/
abbrev DocumentId := Nat

/-- One protocol diagnostic record (`lsp::Diagnostic`): the handler passes
these through verbatim without inspecting them, so an opaque identity
suffices. -/
abbrev LspDiagnostic := Nat

/-- `lsp::FullDocumentDiagnosticReport`: an optional result id plus the items. -/
structure FullDocumentDiagnosticReport where
  result_id : Option String
  items : List LspDiagnostic
deriving DecidableEq, Repr

/-- `lsp::UnchangedDocumentDiagnosticReport`: a mandatory result id. -/
structure UnchangedDocumentDiagnosticReport where
  result_id : String
deriving DecidableEq, Repr

/-- `lsp::DocumentDiagnosticReportKind`: the shape of one related-document
sub-report. -/
inductive DocumentDiagnosticReportKind
  | Full (report : FullDocumentDiagnosticReport)
  | Unchanged (report : UnchangedDocumentDiagnosticReport)
deriving DecidableEq, Repr

/-- `lsp::RelatedFullDocumentDiagnosticReport`: a full report plus the
optional map of related-document sub-reports. -/
structure RelatedFullDocumentDiagnosticReport where
  related_documents : Option (List (Uri × DocumentDiagnosticReportKind))
  full_document_diagnostic_report : FullDocumentDiagnosticReport
deriving DecidableEq, Repr

/-- `lsp::RelatedUnchangedDocumentDiagnosticReport`. -/
structure RelatedUnchangedDocumentDiagnosticReport where
  related_documents : Option (List (Uri × DocumentDiagnosticReportKind))
  unchanged_document_diagnostic_report : UnchangedDocumentDiagnosticReport
deriving DecidableEq, Repr

/-- `lsp::DocumentDiagnosticReport`. -/
inductive DocumentDiagnosticReport
  | Full (report : RelatedFullDocumentDiagnosticReport)
  | Unchanged (report : RelatedUnchangedDocumentDiagnosticReport)
deriving DecidableEq, Repr

/-- `lsp::DocumentDiagnosticReportPartialResult`, the payload of a partial
(streamed) result — explicitly unhandled by this core. -/
structure DocumentDiagnosticReportPartialResult where
  related_documents : List (Uri × DocumentDiagnosticReportKind)
deriving DecidableEq, Repr

/-- `lsp::DocumentDiagnosticReportResult`. -/
inductive DocumentDiagnosticReportResult
  | Report (report : DocumentDiagnosticReport)
  | Partial (result : DocumentDiagnosticReportPartialResult)
deriving DecidableEq, Repr

/-! ## Server capabilities -/

/-- `lsp::DiagnosticOptions`, the fields read by the handler: the optional
sub-provider `identifier` and the `inter_file_dependencies` flag. -/
structure DiagnosticOptions where
  identifier : Option String
  inter_file_dependencies : Bool
deriving DecidableEq, Repr

/-- `lsp::DiagnosticServerCapabilities`: either plain options or registration
options; the registration variant wraps the same `DiagnosticOptions` (the
source reads `options.diagnostic_options.…` there, flattened here). -/
inductive DiagnosticServerCapabilities
  | Options (options : DiagnosticOptions)
  | RegistrationOptions (options : DiagnosticOptions)
deriving DecidableEq, Repr

/-- The `inter_file_dependencies` read of diagnostics.rs lines 159-166,
identical over both capability variants. -/
def DiagnosticServerCapabilities.inter_file_dependencies :
    DiagnosticServerCapabilities → Bool
  | DiagnosticServerCapabilities.Options options => options.inter_file_dependencies
  | DiagnosticServerCapabilities.RegistrationOptions options =>
    options.inter_file_dependencies

/-- The `identifier` read of diagnostics.rs lines 174-185, identical over
both capability variants. -/
def DiagnosticServerCapabilities.identifier :
    DiagnosticServerCapabilities → Option String
  | DiagnosticServerCapabilities.Options options => options.identifier
  | DiagnosticServerCapabilities.RegistrationOptions options => options.identifier

/-- One connected language analysis server as seen by this core:
its identity, whether it advertises the pull-diagnostics feature, its
diagnostic capability options, and whether `text_document_diagnostic`
returns a request at this call site (the source's
`language_server.text_document_diagnostic(..)?`, an `Option`). -/
structure LanguageServer where
  id : LanguageServerId
  supports_pull_diagnostics : Bool
  diagnostic_provider : Option DiagnosticServerCapabilities
  offers_text_document_diagnostic : Bool
deriving DecidableEq, Repr

/-! ## Editor state -/

/-- The per-document state this core reads and writes: the document's
identity, its uri (`doc.uri()`, an `Option`), the per-document result cursor
`previous_diagnostic_id`, and the servers attached to the document (possibly
with duplicate identities: a server may be attached under more than one
registration). -/
structure Document where
  id : DocumentId
  uri : Option Uri
  previous_diagnostic_id : Option String
  language_servers : List LanguageServer
deriving DecidableEq, Repr

/-- The shared diagnostics store, keyed by (document uri, provider). -/
abbrev DiagnosticsStore := List ((Uri × DiagnosticProvider) × List LspDiagnostic)

/-- Wholesale replacement of the diagnostic set stored for one key. -/
def storeSet (store : DiagnosticsStore) (key : Uri × DiagnosticProvider)
    (items : List LspDiagnostic) : DiagnosticsStore :=
  (key, items) :: store.filter (fun entry => decide (entry.1 ≠ key))

/-- Lookup of the diagnostic set stored for one key. -/
def storeGet (store : DiagnosticsStore) (key : Uri × DiagnosticProvider) :
    Option (List LspDiagnostic) :=
  (store.find? (fun entry => decide (entry.1 = key))).map (fun entry => entry.2)

/-- The slice of global editor state this core touches: the open documents
and the diagnostics store. -/
structure Editor where
  documents : List Document
  diagnostics : DiagnosticsStore
deriving DecidableEq, Repr

/-- `editor.document_mut(doc_id)` as a lookup. -/
def Editor.document? (e : Editor) (doc_id : DocumentId) : Option Document :=
  e.documents.find? (fun d => d.id == doc_id)

/-- Mutation of one document in place (the effect of writing through
`editor.document_mut(doc_id)`). -/
def Editor.updateDocument (e : Editor) (doc_id : DocumentId)
    (f : Document → Document) : Editor :=
  { e with documents := e.documents.map (fun d => if d.id == doc_id then f d else d) }

/-- Modelled from the spec: `Editor::handle_lsp_diagnostics` lives in
helix-view, outside the shown sources.  Spec sections 3 and 4.4: the store is
keyed by (document uri, provider) and a Full report's item list
wholesale-replaces the diagnostic set for that key, never merged
incrementally.  The `version` argument is passed as `None` by the handler and
unused here. -/
def Editor.handle_lsp_diagnostics (e : Editor) (provider : DiagnosticProvider)
    (uri : Uri) (_version : Option Nat) (items : List LspDiagnostic) : Editor :=
  { e with diagnostics := storeSet e.diagnostics (uri, provider) items }

/-! ## Response reconciliation — `handle_pull_diagnostics_response`
(diagnostics.rs lines 268-299) -/

/-- `handle_pull_diagnostics_response` (diagnostics.rs lines 268-299),
translated branch for branch: a Full report replaces the stored set for
(uri, provider) and yields its optional result id; an Unchanged report
yields `Some` of its result id; either way the document's
`previous_diagnostic_id` is then assigned (when the document still exists);
a Partial result is a no-op. -/
def handle_pull_diagnostics_response (editor : Editor)
    (result : DocumentDiagnosticReportResult) (provider : DiagnosticProvider)
    (uri : Uri) (document_id : DocumentId) : Editor :=
  match result with
  | DocumentDiagnosticReportResult.Report report =>
    let applied : Editor × Option String :=
      match report with
      | DocumentDiagnosticReport.Full report =>
        (editor.handle_lsp_diagnostics provider uri none
            report.full_document_diagnostic_report.items,
          report.full_document_diagnostic_report.result_id)
      | DocumentDiagnosticReport.Unchanged report =>
        (editor, some report.unchanged_document_diagnostic_report.result_id)
    let editor := applied.1
    let result_id := applied.2
    match editor.document? document_id with
    | some _ =>
      editor.updateDocument document_id
        (fun d => { d with previous_diagnostic_id := result_id })
    | none => editor
  | DocumentDiagnosticReportResult.Partial _ => editor

/-! ## Request building — `request_document_diagnostics`
(diagnostics.rs lines 140-204), the synchronous phase that builds the
ordered group of requests -/

/-- One built request of a group, as paired by the source closure: the
cursor the request carries, the provider identity it will resolve to, and
the document uri. -/
structure BuiltRequest where
  previous_result_id : Option String
  provider : DiagnosticProvider
  uri : Uri
deriving DecidableEq, Repr

/-- The iterator chain of diagnostics.rs lines 150-200 with the
`seen_language_servers` set threaded explicitly: keep servers advertising
the pull-diagnostics feature, de-duplicate by server identity, in sweep mode
drop servers without the inter-file-dependencies capability, skip servers
offering no request or documents without a uri, and pair each surviving
request with its provider identity and the document uri.  Every request
carries `doc.previous_diagnostic_id` as its cursor (line 172). -/
def build_requests_go (doc : Document)
    (only_providers_with_inter_file_dependencies : Bool) :
    List LanguageServerId → List LanguageServer → List BuiltRequest
  | _, [] => []
  | seen, ls :: rest =>
    if !ls.supports_pull_diagnostics then
      build_requests_go doc only_providers_with_inter_file_dependencies seen rest
    else if seen.contains ls.id then
      build_requests_go doc only_providers_with_inter_file_dependencies seen rest
    else
      let seen' := ls.id :: seen
      if only_providers_with_inter_file_dependencies
          && !((ls.diagnostic_provider.map
                (fun dp => dp.inter_file_dependencies)).getD false) then
        build_requests_go doc only_providers_with_inter_file_dependencies seen' rest
      else if !ls.offers_text_document_diagnostic then
        build_requests_go doc only_providers_with_inter_file_dependencies seen' rest
      else
        match doc.uri with
        | none => build_requests_go doc only_providers_with_inter_file_dependencies seen' rest
        | some uri =>
          { previous_result_id := doc.previous_diagnostic_id
            provider := DiagnosticProvider.Lsp ls.id
              (ls.diagnostic_provider.bind (fun dp => dp.identifier))
            uri := uri } ::
            build_requests_go doc only_providers_with_inter_file_dependencies seen' rest

/-- The ordered request group built for one document (diagnostics.rs lines
149-200): the `FuturesOrdered` collection, in submission order. -/
def build_diagnostic_requests (doc : Document)
    (only_providers_with_inter_file_dependencies : Bool) : List BuiltRequest :=
  build_requests_go doc only_providers_with_inter_file_dependencies [] doc.language_servers

/-! ## Errors and the drain loop — diagnostics.rs lines 213-264 -/

/-- `lsp::DiagnosticServerCancellationData`: the typed cancellation payload. -/
structure DiagnosticServerCancellationData where
  retrigger_request : Bool
deriving DecidableEq, Repr

/-- A `serde_json::Value` carried by an RPC error, as far as the handler
inspects it: it either parses as `DiagnosticServerCancellationData` or the
parse fails. -/
inductive JsonValue
  | cancellation_data (d : DiagnosticServerCancellationData)
  | malformed
deriving DecidableEq, Repr

/-- `serde_json::from_value::<DiagnosticServerCancellationData>(data).ok()`
(diagnostics.rs lines 232-237). -/
def parse_cancellation_data : JsonValue → Option DiagnosticServerCancellationData
  | JsonValue.cancellation_data d => some d
  | JsonValue.malformed => none

/-- The `jsonrpc` error object, as far as the handler inspects it: its
optional `data` payload. -/
structure RpcError where
  data : Option JsonValue
deriving DecidableEq, Repr

/-- `helix_lsp::Error`, split exactly as the handler splits it
(diagnostics.rs lines 230-241): an `Rpc` error whose data may parse as a
cancellation payload, or any other (transport-level) failure. -/
inductive LspError
  | Rpc (error : RpcError)
  | Other (message : String)
deriving DecidableEq, Repr

/-- The outcome of one request of a group. -/
inductive RequestOutcome
  | ok (result : DocumentDiagnosticReportResult)
  | error (err : LspError)
deriving DecidableEq, Repr

/-- One resolved element of the ordered group: the tuple
`(result, provider, uri)` produced by the async closure of lines 194-198. -/
structure DrainItem where
  result : RequestOutcome
  provider : DiagnosticProvider
  uri : Uri
deriving DecidableEq, Repr

/-- The externally visible actions of the spawned drain task: a reconcile
posted to the main core (lines 218-227), an error log (line 239), or a
scheduled delayed re-issue of `request_document_diagnostics` for the same
document and sweep mode (lines 244-254). -/
inductive Effect
  | Reconcile (result : DocumentDiagnosticReportResult)
    (provider : DiagnosticProvider) (uri : Uri) (doc_id : DocumentId)
  | LogError (message : String)
  | Retry (delay_ms : Nat) (doc_id : DocumentId)
    (only_providers_with_inter_file_dependencies : Bool)
deriving DecidableEq, Repr

/-- The spawned drain loop (diagnostics.rs lines 213-264).  `valid i` models
the cancellation check `cancelable_future(futures.next(), &cancel)` made
before consuming the i-th queued result: when the handle is observed
invalidated the task returns, producing nothing further.  An `Ok` result is
posted for reconciliation and the loop continues; an RPC error whose data
parses as a cancellation payload with `retrigger_request` schedules one
500 ms delayed re-issue for the same document and sweep mode and the loop
continues; an RPC error otherwise is dropped and the loop continues; any
other (transport-level) failure is logged and the task returns, dropping
everything still queued. -/
def drainLoop (doc_id : DocumentId)
    (only_providers_with_inter_file_dependencies : Bool) (valid : Nat → Bool) :
    Nat → List DrainItem → List Effect
  | _, [] => []
  | i, item :: rest =>
    if !valid i then []
    else
      match item.result with
      | RequestOutcome.ok result =>
        Effect.Reconcile result item.provider item.uri doc_id ::
          drainLoop doc_id only_providers_with_inter_file_dependencies valid (i + 1) rest
      | RequestOutcome.error err =>
        match err with
        | LspError.Other message =>
          [Effect.LogError ("Pull diagnostic request failed: " ++ message)]
        | LspError.Rpc error =>
          match error.data.bind parse_cancellation_data with
          | some parsed =>
            if parsed.retrigger_request then
              Effect.Retry 500 doc_id only_providers_with_inter_file_dependencies ::
                drainLoop doc_id only_providers_with_inter_file_dependencies valid
                  (i + 1) rest
            else
              drainLoop doc_id only_providers_with_inter_file_dependencies valid
                (i + 1) rest
          | none =>
            drainLoop doc_id only_providers_with_inter_file_dependencies valid
              (i + 1) rest

/-- The editor-state meaning of one drained effect: a posted `Reconcile`
runs `handle_pull_diagnostics_response` on the main core; a log or a
scheduled retry leaves the editor state untouched. -/
def applyEffect (editor : Editor) : Effect → Editor
  | Effect.Reconcile result provider uri doc_id =>
    handle_pull_diagnostics_response editor result provider uri doc_id
  | Effect.LogError _ => editor
  | Effect.Retry _ _ _ => editor

/-- Folding a drained effect list over the editor state, in drain order. -/
def applyEffects (editor : Editor) (effects : List Effect) : Editor :=
  effects.foldl applyEffect editor

/-! ## Per-document debounce — `PullDiagnosticsHandler`
(diagnostics.rs lines 74-107) -/

/-- `PullDiagnosticsEvent`: the payload fed to the per-document aggregator. -/
structure PullDiagnosticsEvent where
  document_id : DocumentId
deriving DecidableEq, Repr

/-- `PullDiagnosticsHandler` (lines 74-77): the pending set of document ids,
a `HashSet` modelled as a duplicate-free list in insertion order. -/
structure PullDiagnosticsHandler where
  document_ids : List DocumentId
deriving DecidableEq, Repr

/-- One orchestrator invocation requested by a flush:
`request_document_diagnostics(editor, document_id, sweep)`. -/
structure RequestCall where
  document_id : DocumentId
  only_providers_with_inter_file_dependencies : Bool
deriving DecidableEq, Repr

/-- `PullDiagnosticsHandler::handle_event` (lines 90-97): insert the event's
document id into the pending set and re-arm a deadline 250 ms from now. -/
def PullDiagnosticsHandler.handle_event (h : PullDiagnosticsHandler)
    (event : PullDiagnosticsEvent) (now : Nat) :
    PullDiagnosticsHandler × Option Nat :=
  (⟨if h.document_ids.contains event.document_id then h.document_ids
    else h.document_ids ++ [event.document_id]⟩,
    some (now + 250))

/-- `PullDiagnosticsHandler::finish_debounce` (lines 99-106): clone the
pending set and dispatch one non-sweep orchestrator invocation per collected
document id.  The source clones `self.document_ids` into the dispatched
closure and never clears the field, so the handler state is returned
unchanged. -/
def PullDiagnosticsHandler.finish_debounce (h : PullDiagnosticsHandler) :
    PullDiagnosticsHandler × List RequestCall :=
  (h, h.document_ids.map (fun document_id =>
    { document_id := document_id
      only_providers_with_inter_file_dependencies := false }))

/-! ## The ordered-but-concurrent queue — `FuturesOrdered`

The external `futures_util::stream::FuturesOrdered` contract: all members
are polled concurrently, but `next()` yields results strictly in submission
order.  Modelled operationally: completions arrive in an arbitrary order
(a permutation of the submission indices); an arriving result is buffered,
and the queue releases the maximal run of consecutive submission indices
starting at the head-of-line counter. -/

/-- Release from `buffer` the maximal run of consecutive indices starting at
`next`.  Returns (emitted run, new head-of-line counter, remaining buffer).
`fuel` bounds the recursion; any fuel exceeding the buffer length is enough. -/
def drainBuffer : Nat → Nat → List Nat → List Nat × Nat × List Nat
  | 0, next, buffer => ([], next, buffer)
  | fuel + 1, next, buffer =>
    if buffer.contains next then
      let r := drainBuffer fuel (next + 1) (buffer.erase next)
      (next :: r.1, r.2.1, r.2.2)
    else
      ([], next, buffer)

/-- The queue's internal state: the next submission index to yield and the
buffer of completed-but-unreleased indices. -/
structure OrderedQueueState where
  next : Nat
  buffer : List Nat
deriving DecidableEq, Repr

/-- One completion arrival: buffer the arrived index, then release every
consecutive index now available. -/
def futuresOrderedStep (s : OrderedQueueState) (k : Nat) :
    List Nat × OrderedQueueState :=
  let buffer := k :: s.buffer
  let r := drainBuffer (buffer.length + 1) s.next buffer
  (r.1, ⟨r.2.1, r.2.2⟩)

/-- One fold step of the emission run: append what the arrival released. -/
def futuresOrderedFold (acc : List Nat × OrderedQueueState) (k : Nat) :
    List Nat × OrderedQueueState :=
  (acc.1 ++ (futuresOrderedStep acc.2 k).1, (futuresOrderedStep acc.2 k).2)

/-- The full emission sequence of the queue for a given completion order. -/
def futuresOrderedEmit (completions : List Nat) : List Nat :=
  (completions.foldl futuresOrderedFold (([] : List Nat), ⟨0, []⟩)).1

/-- The sequence of group results actually consumed by `futures.next()`,
given the submission-ordered item list and the completion order of the
underlying requests. -/
def drainedSequence (items : List DrainItem) (completions : List Nat) :
    List DrainItem :=
  (futuresOrderedEmit completions).filterMap (fun i => items[i]?)

/-- One whole group run: the drain loop consuming the queue's emission for a
given completion order. -/
def runGroup (doc_id : DocumentId)
    (only_providers_with_inter_file_dependencies : Bool) (valid : Nat → Bool)
    (items : List DrainItem) (completions : List Nat) : List Effect :=
  drainLoop doc_id only_providers_with_inter_file_dependencies valid 0
    (drainedSequence items completions)

/-! ## Helper lemmas -/

theorem updateDocument_diagnostics (e : Editor) (doc_id : DocumentId)
    (f : Document → Document) :
    (e.updateDocument doc_id f).diagnostics = e.diagnostics := rfl

theorem handle_lsp_diagnostics_document_q (e : Editor)
    (provider : DiagnosticProvider) (uri : Uri) (version : Option Nat)
    (items : List LspDiagnostic) (q : DocumentId) :
    (e.handle_lsp_diagnostics provider uri version items).document? q =
      e.document? q := rfl

theorem document_q_updateDocument (e : Editor) (doc_id q : DocumentId)
    (f : Document → Document) (hf : ∀ d, (f d).id = d.id) :
    (e.updateDocument doc_id f).document? q =
      (e.document? q).map (fun d => if d.id == doc_id then f d else d) := by
  unfold Editor.updateDocument Editor.document?
  induction e.documents with
  | nil => rfl
  | cons d rest ih =>
    simp only [List.map_cons, List.find?_cons]
    have hid : ((if d.id == doc_id then f d else d).id == q) = (d.id == q) := by
      split
      · rw [hf d]
      · rfl
    rw [hid]
    cases hq : (d.id == q) with
    | true => simp
    | false => simpa using ih

theorem find?_doc_id (docs : List Document) (q : DocumentId) (d : Document)
    (h : List.find? (fun x => x.id == q) docs = some d) : d.id = q := by
  induction docs with
  | nil => simp at h
  | cons a rest ih =>
    rw [List.find?_cons] at h
    cases ha : (a.id == q) with
    | true =>
      simp only [ha] at h
      cases h
      simpa using ha
    | false =>
      simp only [ha] at h
      exact ih h

theorem document_q_updateDocument_self (e : Editor) (doc_id : DocumentId)
    (f : Document → Document) (hf : ∀ d, (f d).id = d.id) :
    (e.updateDocument doc_id f).document? doc_id = (e.document? doc_id).map f := by
  rw [document_q_updateDocument e doc_id doc_id f hf]
  cases hfind : e.document? doc_id with
  | none => rfl
  | some d =>
    have hfind' : List.find? (fun x => x.id == doc_id) e.documents = some d := hfind
    have hdq : d.id = doc_id := find?_doc_id e.documents doc_id d hfind'
    have hp' : (d.id == doc_id) = true := by simp [hdq]
    simp [hp']
    intro hcontra
    exact absurd hdq hcontra

theorem document_q_updateDocument_ne (e : Editor) (doc_id q : DocumentId)
    (f : Document → Document) (hf : ∀ d, (f d).id = d.id) (hq : q ≠ doc_id) :
    (e.updateDocument doc_id f).document? q = e.document? q := by
  rw [document_q_updateDocument e doc_id q f hf]
  cases hfind : e.document? q with
  | none => rfl
  | some d =>
    have hfind' : List.find? (fun x => x.id == q) e.documents = some d := hfind
    have hdq : d.id = q := find?_doc_id e.documents q d hfind'
    have hne : (d.id == doc_id) = false := by simp [hdq, hq]
    simp [hne]
    intro hcontra
    exact absurd (hdq ▸ hcontra) hq

theorem storeGet_storeSet_same (store : DiagnosticsStore)
    (key : Uri × DiagnosticProvider) (items : List LspDiagnostic) :
    storeGet (storeSet store key items) key = some items := by
  simp [storeGet, storeSet]

theorem find?_filter_ne_key (rest : DiagnosticsStore)
    (key k : Uri × DiagnosticProvider) (h : k ≠ key) :
    List.find? (fun entry => decide (entry.1 = k))
        (List.filter (fun entry => decide (entry.1 ≠ key)) rest) =
      List.find? (fun entry => decide (entry.1 = k)) rest := by
  induction rest with
  | nil => rfl
  | cons entry rest ih =>
    by_cases he : entry.1 = key
    · have hcond : (decide (entry.1 ≠ key)) = false := by simp [he]
      have h2 : (decide (entry.1 = k)) = false := by
        simp only [decide_eq_false_iff_not]
        exact fun hk => h (hk ▸ he)
      rw [List.filter_cons, List.find?_cons, hcond]
      simp only [Bool.false_eq_true, if_false, h2]
      exact ih
    · have hcond : (decide (entry.1 ≠ key)) = true := by simp [he]
      rw [List.filter_cons, List.find?_cons, hcond, if_pos rfl, List.find?_cons]
      cases h2 : (decide (entry.1 = k)) with
      | true => simp only [h2]
      | false =>
        simp only [h2]
        exact ih

theorem storeGet_storeSet_ne (store : DiagnosticsStore)
    (key k : Uri × DiagnosticProvider) (items : List LspDiagnostic)
    (h : k ≠ key) :
    storeGet (storeSet store key items) k = storeGet store k := by
  unfold storeGet storeSet
  have hhead : (decide ((key, items).1 = k)) = false := by
    simp only [decide_eq_false_iff_not]
    exact fun hk => h hk.symm
  rw [List.find?_cons]
  simp only [hhead]
  rw [find?_filter_ne_key store key k h]

theorem build_requests_go_cursor (doc : Document) (s : Bool)
    (servers : List LanguageServer) :
    ∀ (seen : List LanguageServerId) (req : BuiltRequest),
      req ∈ build_requests_go doc s seen servers →
      req.previous_result_id = doc.previous_diagnostic_id := by
  induction servers with
  | nil => intro seen req h; simp [build_requests_go] at h
  | cons ls rest ih =>
    intro seen req h
    unfold build_requests_go at h
    split at h
    · exact ih _ req h
    · split at h
      · exact ih _ req h
      · split at h
        · exact ih _ req h
        · split at h
          · exact ih _ req h
          · split at h
            · exact ih _ req h
            · rcases List.mem_cons.mp h with h1 | h1
              · rw [h1]
              · exact ih _ req h1

theorem build_diagnostic_requests_cursor (doc : Document) (s : Bool)
    (req : BuiltRequest) (h : req ∈ build_diagnostic_requests doc s) :
    req.previous_result_id = doc.previous_diagnostic_id :=
  build_requests_go_cursor doc s doc.language_servers [] req h

theorem drainLoop_cutoff (doc_id : DocumentId) (s : Bool) (k : Nat)
    (items : List DrainItem) :
    ∀ i, drainLoop doc_id s (fun j => decide (j < k)) i items =
      drainLoop doc_id s (fun _ => true) i (items.take (k - i)) := by
  induction items with
  | nil => intro i; simp [drainLoop]
  | cons item rest ih =>
    intro i
    by_cases hik : i < k
    · have htake : k - i = (k - (i + 1)) + 1 := by omega
      rw [htake, List.take_succ_cons]
      have hv : decide (i < k) = true := by simpa using hik
      cases hres : item.result with
      | ok result =>
        simp [drainLoop, hv, hres, ih (i + 1)]
      | error err =>
        cases err with
        | Other message => simp [drainLoop, hv, hres]
        | Rpc error =>
          cases hd : error.data.bind parse_cancellation_data with
          | none => simp [drainLoop, hv, hres, hd, ih (i + 1)]
          | some parsed =>
            cases hp : parsed.retrigger_request with
            | true => simp [drainLoop, hv, hres, hd, hp, ih (i + 1)]
            | false => simp [drainLoop, hv, hres, hd, hp, ih (i + 1)]
    · have h0 : k - i = 0 := by omega
      have hv : decide (i < k) = false := by simpa using hik
      rw [h0]
      simp [drainLoop, hv]

theorem handle_response_unchanged_eq (editor : Editor)
    (report : RelatedUnchangedDocumentDiagnosticReport)
    (provider : DiagnosticProvider) (uri : Uri) (document_id : DocumentId) :
    handle_pull_diagnostics_response editor
        (DocumentDiagnosticReportResult.Report
          (DocumentDiagnosticReport.Unchanged report)) provider uri document_id =
      match editor.document? document_id with
      | some _ =>
        editor.updateDocument document_id (fun d =>
          { d with
            previous_diagnostic_id :=
              some report.unchanged_document_diagnostic_report.result_id })
      | none => editor := rfl

theorem handle_response_full_eq (editor : Editor)
    (report : RelatedFullDocumentDiagnosticReport)
    (provider : DiagnosticProvider) (uri : Uri) (document_id : DocumentId) :
    handle_pull_diagnostics_response editor
        (DocumentDiagnosticReportResult.Report
          (DocumentDiagnosticReport.Full report)) provider uri document_id =
      match editor.document? document_id with
      | some _ =>
        (editor.handle_lsp_diagnostics provider uri none
            report.full_document_diagnostic_report.items).updateDocument document_id
          (fun d =>
            { d with
              previous_diagnostic_id :=
                report.full_document_diagnostic_report.result_id })
      | none => editor.handle_lsp_diagnostics provider uri none
          report.full_document_diagnostic_report.items := rfl

/-! ## Concrete fixtures used by witnesses and counterexamples -/

/-- A pull-capable server with inter-file dependencies and no sub-identifier. -/
def serverA : LanguageServer :=
  { id := 10, supports_pull_diagnostics := true,
    diagnostic_provider := some (DiagnosticServerCapabilities.Options
      { identifier := none, inter_file_dependencies := true }),
    offers_text_document_diagnostic := true }

/-- A second pull-capable server, distinct identity. -/
def serverB : LanguageServer :=
  { id := 20, supports_pull_diagnostics := true,
    diagnostic_provider := some (DiagnosticServerCapabilities.Options
      { identifier := none, inter_file_dependencies := true }),
    offers_text_document_diagnostic := true }

/-- The provider identity `serverA` resolves to. -/
def providerA : DiagnosticProvider := DiagnosticProvider.Lsp 10 none

/-- The provider identity `serverB` resolves to. -/
def providerB : DiagnosticProvider := DiagnosticProvider.Lsp 20 none

/-- A document with both servers attached and a non-trivial cursor. -/
def docA : Document :=
  { id := 1, uri := some "file:a.rs", previous_diagnostic_id := some "old",
    language_servers := [serverA, serverB] }

/-- An editor holding `docA` and an empty diagnostics store. -/
def editorA : Editor := { documents := [docA], diagnostics := [] }

/-- A successful Full report result with one item and a result id. -/
def okFullResult : DocumentDiagnosticReportResult :=
  DocumentDiagnosticReportResult.Report (DocumentDiagnosticReport.Full
    { related_documents := none,
      full_document_diagnostic_report := { result_id := some "rid", items := [5] } })

/-! ## Claims -/

/-- C9: a `Diagnostic` constructed without an explicit severity reports
`Warning` through the `Diagnostic::severity` accessor, while the `Severity`
type's own default value is `Hint`; the two defaults are distinct and both
observable. -/
theorem severity_accessor_and_type_default (d : Diagnostic)
    (h : d.severity = none) :
    d.severity' = Severity.Warning ∧ Severity.default = Severity.Hint ∧
      Severity.Warning ≠ Severity.Hint := by
  refine ⟨?_, rfl, by decide⟩
  simp [Diagnostic.severity', h]

/-- Witness for C9: a concrete diagnostic with no explicit severity. -/
theorem severity_accessor_and_type_default_witness :
    ({ range := { start := 0, stop := 1 },
          ends_at_word := false,
          starts_at_word := false, zero_width := false, line := 0,
          message := "m",
          severity := none, code := none, provider := providerA, tags := [],
          source := none, data := none } : Diagnostic).severity = none ∧
    (({ range := { start := 0, stop := 1 },
          ends_at_word := false,
          starts_at_word := false, zero_width := false, line := 0,
          message := "m",
          severity := none, code := none, provider := providerA, tags := [],
          source := none, data := none } : Diagnostic).severity' =
        Severity.Warning ∧
      Severity.default = Severity.Hint ∧ Severity.Warning ≠ Severity.Hint) :=
  ⟨rfl, severity_accessor_and_type_default _ rfl⟩

/-- C8: applying an Unchanged report for (document, provider) leaves the
whole diagnostics store untouched — in particular the set stored for that
pair — and updates only the cursor: the document's `previous_diagnostic_id`
becomes the report's result id, and every other document is unchanged. -/
theorem unchanged_report_updates_only_cursor (editor : Editor)
    (report : RelatedUnchangedDocumentDiagnosticReport)
    (provider : DiagnosticProvider) (uri : Uri) (document_id : DocumentId) :
    (handle_pull_diagnostics_response editor
        (DocumentDiagnosticReportResult.Report
          (DocumentDiagnosticReport.Unchanged report)) provider uri
        document_id).diagnostics = editor.diagnostics ∧
    ((handle_pull_diagnostics_response editor
        (DocumentDiagnosticReportResult.Report
          (DocumentDiagnosticReport.Unchanged report)) provider uri
        document_id).document? document_id).map
        (fun d => d.previous_diagnostic_id) =
      (editor.document? document_id).map (fun _ =>
        some report.unchanged_document_diagnostic_report.result_id) ∧
    ∀ q, q ≠ document_id →
      (handle_pull_diagnostics_response editor
        (DocumentDiagnosticReportResult.Report
          (DocumentDiagnosticReport.Unchanged report)) provider uri
        document_id).document? q = editor.document? q := by
  have hf : ∀ d : Document,
      ({ d with
        previous_diagnostic_id :=
          some report.unchanged_document_diagnostic_report.result_id } :
        Document).id = d.id := fun d => rfl
  rw [handle_response_unchanged_eq]
  cases hfind : editor.document? document_id with
  | none =>
    refine ⟨rfl, ?_, fun q hq => rfl⟩
    show (editor.document? document_id).map (fun d => d.previous_diagnostic_id) =
      Option.map (fun _ =>
        some report.unchanged_document_diagnostic_report.result_id) none
    rw [hfind]
    rfl
  | some d =>
    refine ⟨rfl, ?_, ?_⟩
    · rw [document_q_updateDocument_self editor document_id _ hf, hfind]
      rfl
    · intro q hq
      exact document_q_updateDocument_ne editor document_id q _ hf hq

/-- C10: reconciling an accepted Full report that carries no result id
stores `none` as the document's `previous_diagnostic_id`, and every request
subsequently built for that document (in either sweep mode) carries no
previous result id. -/
theorem full_report_without_result_id_clears_cursor (editor : Editor)
    (report : RelatedFullDocumentDiagnosticReport)
    (provider : DiagnosticProvider) (uri : Uri) (document_id : DocumentId)
    (s : Bool)
    (h : report.full_document_diagnostic_report.result_id = none) :
    ((handle_pull_diagnostics_response editor
        (DocumentDiagnosticReportResult.Report
          (DocumentDiagnosticReport.Full report)) provider uri
        document_id).document? document_id).map
        (fun d => d.previous_diagnostic_id) =
      (editor.document? document_id).map (fun _ => (none : Option String)) ∧
    ∀ doc, (handle_pull_diagnostics_response editor
        (DocumentDiagnosticReportResult.Report
          (DocumentDiagnosticReport.Full report)) provider uri
        document_id).document? document_id = some doc →
      ∀ req ∈ build_diagnostic_requests doc s, req.previous_result_id = none := by
  have hf : ∀ d : Document,
      ({ d with
        previous_diagnostic_id :=
          report.full_document_diagnostic_report.result_id } :
        Document).id = d.id := fun d => rfl
  have hdq := handle_lsp_diagnostics_document_q editor provider uri none
    report.full_document_diagnostic_report.items document_id
  rw [handle_response_full_eq]
  cases hfind : editor.document? document_id with
  | none =>
    constructor
    · rw [hdq, hfind]
      rfl
    · intro doc hdoc
      rw [hdq, hfind] at hdoc
      exact absurd hdoc (by simp)
  | some d =>
    constructor
    · rw [document_q_updateDocument_self _ document_id _ hf, hdq, hfind]
      simp [h]
    · intro doc hdoc req hreq
      rw [document_q_updateDocument_self _ document_id _ hf, hdq, hfind] at hdoc
      simp only [Option.map_some'] at hdoc
      cases hdoc
      rw [build_diagnostic_requests_cursor _ s req hreq]
      exact h

/-- Witness for C10: at `editorA`, a Full report with no result id clears
the cursor of document 1 and leaves nothing for later requests to carry. -/
theorem full_report_without_result_id_clears_cursor_witness :
    ({ related_documents := none,
       full_document_diagnostic_report :=
         { result_id := none, items := [5] } } :
      RelatedFullDocumentDiagnosticReport).full_document_diagnostic_report.result_id =
        none ∧
    (((handle_pull_diagnostics_response editorA
        (DocumentDiagnosticReportResult.Report
          (DocumentDiagnosticReport.Full
            { related_documents := none,
              full_document_diagnostic_report :=
                { result_id := none, items := [5] } })) providerA "file:a.rs"
        1).document? 1).map (fun d => d.previous_diagnostic_id) =
      (editorA.document? 1).map (fun _ => (none : Option String)) ∧
    ∀ doc, (handle_pull_diagnostics_response editorA
        (DocumentDiagnosticReportResult.Report
          (DocumentDiagnosticReport.Full
            { related_documents := none,
              full_document_diagnostic_report :=
                { result_id := none, items := [5] } })) providerA "file:a.rs"
        1).document? 1 = some doc →
      ∀ req ∈ build_diagnostic_requests doc false,
        req.previous_result_id = none) :=
  ⟨rfl, full_report_without_result_id_clears_cursor editorA
    { related_documents := none,
      full_document_diagnostic_report := { result_id := none, items := [5] } }
    providerA "file:a.rs" 1 false rfl⟩

/-- C5: the cancellation handle is checked before acting on every drained
result.  With a handle observed invalidated from step `k` on, the drain
produces exactly the effects of the first `k` submission-ordered results and
nothing else — no further result is drained and nothing still queued is
reconciled; a handle invalidated from the start yields no effects at all,
and in particular no error is reported. -/
theorem cancellation_check_stops_drain (doc_id : DocumentId) (s : Bool)
    (k : Nat) (items : List DrainItem) :
    drainLoop doc_id s (fun j => decide (j < k)) 0 items =
      drainLoop doc_id s (fun _ => true) 0 (items.take k) ∧
    drainLoop doc_id s (fun _ => false) 0 items = [] := by
  constructor
  · simpa using drainLoop_cutoff doc_id s k items 0
  · cases items with
    | nil => rfl
    | cons item rest => simp [drainLoop]

/-- C6: a response failing with an RPC error whose well-formed cancellation
payload carries `retrigger_request = true` schedules, when no cancellation
intervenes (the handle is still valid at that step), exactly one re-issue of
`request_document_diagnostics` with the fixed 500 ms delay, for the same
document id and the same sweep mode; a group holding only that response
drains to exactly that one scheduled retry. -/
theorem retrigger_schedules_single_retry (doc_id : DocumentId) (s : Bool)
    (valid : Nat → Bool) (i : Nat) (rest : List DrainItem)
    (provider : DiagnosticProvider) (uri : Uri)
    (hv : valid i = true) :
    drainLoop doc_id s valid i
        ({ result := RequestOutcome.error (LspError.Rpc
            { data := some (JsonValue.cancellation_data
              { retrigger_request := true }) }),
           provider := provider, uri := uri } :: rest) =
      Effect.Retry 500 doc_id s :: drainLoop doc_id s valid (i + 1) rest ∧
    drainLoop doc_id s valid i
        [{ result := RequestOutcome.error (LspError.Rpc
            { data := some (JsonValue.cancellation_data
              { retrigger_request := true }) }),
           provider := provider, uri := uri }] =
      [Effect.Retry 500 doc_id s] := by
  constructor
  · simp [drainLoop, hv, parse_cancellation_data, Option.bind]
  · simp [drainLoop, hv, parse_cancellation_data, Option.bind]

/-- Witness for C6 at a fully valid handle and an empty remaining queue. -/
theorem retrigger_schedules_single_retry_witness :
    ((fun _ : Nat => true) 0 = true) ∧
    (drainLoop 1 false (fun _ => true) 0
        ({ result := RequestOutcome.error (LspError.Rpc
            { data := some (JsonValue.cancellation_data
              { retrigger_request := true }) }),
           provider := providerA, uri := "file:a.rs" } :: []) =
      Effect.Retry 500 1 false :: drainLoop 1 false (fun _ => true) (0 + 1) [] ∧
    drainLoop 1 false (fun _ => true) 0
        [{ result := RequestOutcome.error (LspError.Rpc
            { data := some (JsonValue.cancellation_data
              { retrigger_request := true }) }),
           provider := providerA, uri := "file:a.rs" }] =
      [Effect.Retry 500 1 false]) :=
  ⟨rfl, retrigger_schedules_single_retry 1 false (fun _ => true) 0 []
    providerA "file:a.rs" rfl⟩

/-- C7 counterexample: with a transport-level failure first in the queue and
a successful response still queued behind it, the drain produces only the
log entry; the queued successful response is never reconciled — contradicting
the claim that dropping one failed response does not discard the other
responses of the same group still queued for draining. -/
theorem transport_failure_counterexample :
    drainLoop 1 false (fun _ => true) 0
        [{ result := RequestOutcome.error (LspError.Other "boom"),
           provider := providerA, uri := "file:a.rs" },
         { result := RequestOutcome.ok okFullResult,
           provider := providerB, uri := "file:a.rs" }] =
      [Effect.LogError "Pull diagnostic request failed: boom"] ∧
    Effect.Reconcile okFullResult providerB "file:a.rs" 1 ∉
      drainLoop 1 false (fun _ => true) 0
        [{ result := RequestOutcome.error (LspError.Other "boom"),
           provider := providerA, uri := "file:a.rs" },
         { result := RequestOutcome.ok okFullResult,
           provider := providerB, uri := "file:a.rs" }] := by
  constructor
  · rfl
  · decide

/-- C7 amended: a transport-level (non-RPC) failure of one request in a
group is logged and stops the drain task entirely: the failed response and
every response still queued behind it are dropped with no retry, and the
editor state — diagnostics and cursors — stays exactly at its last accepted
state. -/
theorem transport_failure_logged_and_stops (doc_id : DocumentId) (s : Bool)
    (valid : Nat → Bool) (i : Nat) (item : DrainItem) (rest : List DrainItem)
    (message : String) (editor : Editor)
    (hres : item.result = RequestOutcome.error (LspError.Other message))
    (hv : valid i = true) :
    drainLoop doc_id s valid i (item :: rest) =
      [Effect.LogError ("Pull diagnostic request failed: " ++ message)] ∧
    applyEffects editor (drainLoop doc_id s valid i (item :: rest)) = editor := by
  have heq : drainLoop doc_id s valid i (item :: rest) =
      [Effect.LogError ("Pull diagnostic request failed: " ++ message)] := by
    simp [drainLoop, hv, hres]
  refine ⟨heq, ?_⟩
  rw [heq]
  rfl

/-- Witness for C7 amended at a concrete failing item and editor. -/
theorem transport_failure_logged_and_stops_witness :
    (({ result := RequestOutcome.error (LspError.Other "boom"),
        provider := providerA, uri := "file:a.rs" } : DrainItem).result =
      RequestOutcome.error (LspError.Other "boom")) ∧
    ((fun _ : Nat => true) 0 = true) ∧
    (drainLoop 1 false (fun _ => true) 0
        ({ result := RequestOutcome.error (LspError.Other "boom"),
           provider := providerA, uri := "file:a.rs" } :: []) =
      [Effect.LogError ("Pull diagnostic request failed: " ++ "boom")] ∧
    applyEffects editorA (drainLoop 1 false (fun _ => true) 0
        ({ result := RequestOutcome.error (LspError.Other "boom"),
           provider := providerA, uri := "file:a.rs" } :: [])) = editorA) :=
  ⟨rfl, rfl, transport_failure_logged_and_stops 1 false (fun _ => true) 0
    { result := RequestOutcome.error (LspError.Other "boom"),
      provider := providerA, uri := "file:a.rs" } [] "boom" editorA rfl rfl⟩

/-- C4 counterexample: after one collected edit and one flush the pending
set still holds the document — the source never clears it — so a second
flush with no intervening edit re-requests the same document, contradicting
"then clears the set, so a document edited before one flush is not
re-requested by a later flush unless it is edited again". -/
theorem flush_does_not_clear_counterexample :
    ((PullDiagnosticsHandler.handle_event { document_ids := [] }
        { document_id := 1 } 0).1.finish_debounce).1.document_ids = [1] ∧
    ([1] : List DocumentId) ≠ [] ∧
    (((PullDiagnosticsHandler.handle_event { document_ids := [] }
        { document_id := 1 } 0).1.finish_debounce).1.finish_debounce).2 =
      [{ document_id := 1, only_providers_with_inter_file_dependencies := false }] := by
  refine ⟨rfl, by decide, rfl⟩

/-- C4 amended: on deadline expiry the flush invokes the orchestrator with
sweep mode off exactly once per collected document id, but the pending set
is not cleared: the handler state is returned unchanged, so a later flush
re-requests every previously collected document even without a new edit. -/
theorem flush_requests_all_collected_without_clearing
    (h : PullDiagnosticsHandler) (d : DocumentId) :
    (h.finish_debounce).2 = h.document_ids.map (fun i =>
      { document_id := i, only_providers_with_inter_file_dependencies := false }) ∧
    (({ document_id := d, only_providers_with_inter_file_dependencies := false } :
        RequestCall) ∈ (h.finish_debounce).2 ↔ d ∈ h.document_ids) ∧
    (h.finish_debounce).1 = h ∧
    (({ document_id := d, only_providers_with_inter_file_dependencies := false } :
        RequestCall) ∈ ((h.finish_debounce).1.finish_debounce).2 ↔
      d ∈ h.document_ids) := by
  refine ⟨rfl, ?_, rfl, ?_⟩ <;>
    simp [PullDiagnosticsHandler.finish_debounce]

/-! ### FuturesOrdered correctness: emission is submission order -/

theorem drainBuffer_succ_pos (fuel next : Nat) (buffer : List Nat)
    (hc : buffer.contains next = true) :
    drainBuffer (fuel + 1) next buffer =
      (next :: (drainBuffer fuel (next + 1) (buffer.erase next)).1,
       (drainBuffer fuel (next + 1) (buffer.erase next)).2) := by
  simp [drainBuffer, hc]
  simpa using hc

theorem drainBuffer_succ_neg (fuel next : Nat) (buffer : List Nat)
    (hc : buffer.contains next = false) :
    drainBuffer (fuel + 1) next buffer = ([], next, buffer) := by
  simp [drainBuffer, hc]
  simpa using hc

theorem drainBuffer_emit_shape (fuel : Nat) :
    ∀ (next : Nat) (buffer : List Nat),
      (drainBuffer fuel next buffer).1 =
        List.range' next (drainBuffer fuel next buffer).1.length := by
  induction fuel with
  | zero => intro next buffer; rfl
  | succ fuel ih =>
    intro next buffer
    cases hc : buffer.contains next with
    | false =>
      rw [drainBuffer_succ_neg fuel next buffer hc]
      rfl
    | true =>
      rw [drainBuffer_succ_pos fuel next buffer hc]
      simp only [List.length_cons, List.range'_succ]
      exact congrArg (fun l => next :: l) (ih (next + 1) (buffer.erase next))

theorem drainBuffer_next_shape (fuel : Nat) :
    ∀ (next : Nat) (buffer : List Nat),
      (drainBuffer fuel next buffer).2.1 =
        next + (drainBuffer fuel next buffer).1.length := by
  induction fuel with
  | zero => intro next buffer; rfl
  | succ fuel ih =>
    intro next buffer
    cases hc : buffer.contains next with
    | false =>
      rw [drainBuffer_succ_neg fuel next buffer hc]
      rfl
    | true =>
      rw [drainBuffer_succ_pos fuel next buffer hc]
      have h1 := ih (next + 1) (buffer.erase next)
      simp only [List.length_cons]
      omega

theorem drainBuffer_perm (fuel : Nat) :
    ∀ (next : Nat) (buffer : List Nat),
      ((drainBuffer fuel next buffer).1 ++
        (drainBuffer fuel next buffer).2.2).Perm buffer := by
  induction fuel with
  | zero => intro next buffer; simp [drainBuffer]
  | succ fuel ih =>
    intro next buffer
    cases hc : buffer.contains next with
    | false =>
      rw [drainBuffer_succ_neg fuel next buffer hc]
      simp
    | true =>
      have hmem : next ∈ buffer := by simpa using hc
      rw [drainBuffer_succ_pos fuel next buffer hc]
      simp only [List.cons_append]
      exact ((ih (next + 1) (buffer.erase next)).cons next).trans
        (List.perm_cons_erase hmem).symm

theorem drainBuffer_stopped (fuel : Nat) :
    ∀ (next : Nat) (buffer : List Nat), buffer.length < fuel →
      ((drainBuffer fuel next buffer).2.2).contains
        ((drainBuffer fuel next buffer).2.1) = false := by
  induction fuel with
  | zero => intro next buffer h; omega
  | succ fuel ih =>
    intro next buffer h
    cases hc : buffer.contains next with
    | false =>
      rw [drainBuffer_succ_neg fuel next buffer hc]
      exact hc
    | true =>
      have hmem : next ∈ buffer := by simpa using hc
      have hpos : 0 < buffer.length := List.length_pos_of_mem hmem
      have herase : (buffer.erase next).length = buffer.length - 1 :=
        List.length_erase_of_mem hmem
      have hlen : (buffer.erase next).length < fuel := by omega
      rw [drainBuffer_succ_pos fuel next buffer hc]
      exact ih (next + 1) (buffer.erase next) hlen

theorem range'_zero_append (m n : Nat) :
    List.range' 0 m ++ List.range' m n = List.range' 0 (m + n) := by
  have h := List.range'_append_1 0 m n
  simp only [Nat.zero_add] at h
  rw [h, Nat.add_comm n m]

/-- The emission-run invariant: emitted so far is exactly the contiguous
prefix of submission indices below `next`, emitted plus buffered indices
are a permutation of the processed arrivals, and the head-of-line index is
never left sitting in the buffer. -/
def QueueInvariant (acc : List Nat × OrderedQueueState)
    (processed : List Nat) : Prop :=
  acc.1 = List.range' 0 acc.2.next ∧
  (acc.1 ++ acc.2.buffer).Perm processed ∧
  acc.2.buffer.contains acc.2.next = false

theorem queueInvariant_init :
    QueueInvariant (([] : List Nat), ⟨0, []⟩) [] :=
  ⟨rfl, List.Perm.refl _, rfl⟩

theorem queueInvariant_step (acc : List Nat × OrderedQueueState)
    (processed : List Nat) (k : Nat) (h : QueueInvariant acc processed) :
    QueueInvariant (futuresOrderedFold acc k) (processed ++ [k]) := by
  obtain ⟨h1, h2, h3⟩ := h
  have hfuel : (k :: acc.2.buffer).length < (k :: acc.2.buffer).length + 1 :=
    Nat.lt_succ_self _
  have he := drainBuffer_emit_shape ((k :: acc.2.buffer).length + 1) acc.2.next
    (k :: acc.2.buffer)
  have hn := drainBuffer_next_shape ((k :: acc.2.buffer).length + 1) acc.2.next
    (k :: acc.2.buffer)
  have hp := drainBuffer_perm ((k :: acc.2.buffer).length + 1) acc.2.next
    (k :: acc.2.buffer)
  have hs := drainBuffer_stopped ((k :: acc.2.buffer).length + 1) acc.2.next
    (k :: acc.2.buffer) hfuel
  unfold QueueInvariant
  refine ⟨?_, ?_, ?_⟩
  · show acc.1 ++ (drainBuffer ((k :: acc.2.buffer).length + 1) acc.2.next
        (k :: acc.2.buffer)).1 =
      List.range' 0 (drainBuffer ((k :: acc.2.buffer).length + 1) acc.2.next
        (k :: acc.2.buffer)).2.1
    rw [hn, h1]
    conv_lhs => rw [he]
    exact range'_zero_append acc.2.next _
  · show ((acc.1 ++ (drainBuffer ((k :: acc.2.buffer).length + 1) acc.2.next
        (k :: acc.2.buffer)).1) ++
      (drainBuffer ((k :: acc.2.buffer).length + 1) acc.2.next
        (k :: acc.2.buffer)).2.2).Perm (processed ++ [k])
    rw [List.append_assoc]
    refine (List.Perm.append_left acc.1 hp).trans ?_
    refine (List.Perm.append_left acc.1
      (List.perm_append_singleton k acc.2.buffer).symm).trans ?_
    rw [← List.append_assoc]
    exact h2.append_right [k]
  · show ((drainBuffer ((k :: acc.2.buffer).length + 1) acc.2.next
        (k :: acc.2.buffer)).2.2).contains
      ((drainBuffer ((k :: acc.2.buffer).length + 1) acc.2.next
        (k :: acc.2.buffer)).2.1) = false
    exact hs

theorem queueInvariant_fold (cs : List Nat) :
    ∀ (acc : List Nat × OrderedQueueState) (processed : List Nat),
      QueueInvariant acc processed →
      QueueInvariant (cs.foldl futuresOrderedFold acc) (processed ++ cs) := by
  induction cs with
  | nil => intro acc processed h; simpa using h
  | cons k rest ih =>
    intro acc processed h
    have hstep := queueInvariant_step acc processed k h
    have hrest := ih (futuresOrderedFold acc k) (processed ++ [k]) hstep
    simpa [List.append_assoc] using hrest

theorem futuresOrderedEmit_perm (completions : List Nat) (n : Nat)
    (h : completions.Perm (List.range n)) :
    futuresOrderedEmit completions = List.range n := by
  unfold futuresOrderedEmit
  have hI := queueInvariant_fold completions (([] : List Nat), ⟨0, []⟩) []
    queueInvariant_init
  simp only [List.nil_append] at hI
  obtain ⟨h1, h2, h3⟩ := hI
  have hperm : ((completions.foldl futuresOrderedFold
      (([] : List Nat), ⟨0, []⟩)).1 ++
      (completions.foldl futuresOrderedFold
      (([] : List Nat), ⟨0, []⟩)).2.buffer).Perm (List.range n) := h2.trans h
  have hlen : (completions.foldl futuresOrderedFold
      (([] : List Nat), ⟨0, []⟩)).1.length +
      (completions.foldl futuresOrderedFold
      (([] : List Nat), ⟨0, []⟩)).2.buffer.length = n := by
    have hl := hperm.length_eq
    simpa using hl
  have hout_len : (completions.foldl futuresOrderedFold
      (([] : List Nat), ⟨0, []⟩)).1.length =
      (completions.foldl futuresOrderedFold
      (([] : List Nat), ⟨0, []⟩)).2.next := by
    rw [h1]
    simp
  have hge : n ≤ (completions.foldl futuresOrderedFold
      (([] : List Nat), ⟨0, []⟩)).2.next := by
    by_contra hlt
    push_neg at hlt
    have hmem : (completions.foldl futuresOrderedFold
        (([] : List Nat), ⟨0, []⟩)).2.next ∈ List.range n := by
      simpa using hlt
    have hmem2 := hperm.mem_iff.mpr hmem
    rcases List.mem_append.mp hmem2 with hmo | hmb
    · rw [h1] at hmo
      obtain ⟨i, hi, heq⟩ := List.mem_range'.mp hmo
      omega
    · have hcontains : (completions.foldl futuresOrderedFold
          (([] : List Nat), ⟨0, []⟩)).2.buffer.contains
          ((completions.foldl futuresOrderedFold
          (([] : List Nat), ⟨0, []⟩)).2.next) = true := by
        simpa using hmb
      rw [h3] at hcontains
      exact Bool.noConfusion hcontains
  have hnext : (completions.foldl futuresOrderedFold
      (([] : List Nat), ⟨0, []⟩)).2.next = n := by omega
  rw [h1, hnext, List.range_eq_range']

theorem getElem_q_range (items : List DrainItem) :
    (List.range items.length).filterMap (fun i => items[i]?) = items := by
  induction items with
  | nil => rfl
  | cons a l ih =>
    rw [List.length_cons, List.range_succ_eq_map, List.filterMap_cons]
    simp only [List.getElem?_cons_zero]
    rw [List.filterMap_map]
    have hcomp : ((fun i => (a :: l)[i]?) ∘ Nat.succ) = fun i => l[i]? := by
      funext i
      simp
    rw [hcomp, ih]

theorem runGroup_submission_order (doc_id : DocumentId) (s : Bool)
    (valid : Nat → Bool) (items : List DrainItem) (completions : List Nat)
    (h : completions.Perm (List.range items.length)) :
    runGroup doc_id s valid items completions =
      drainLoop doc_id s valid 0 items := by
  unfold runGroup drainedSequence
  rw [futuresOrderedEmit_perm completions items.length h, getElem_q_range]

theorem full_report_cursor (editor : Editor)
    (report : RelatedFullDocumentDiagnosticReport)
    (provider : DiagnosticProvider) (uri : Uri) (document_id : DocumentId) :
    ((handle_pull_diagnostics_response editor
        (DocumentDiagnosticReportResult.Report
          (DocumentDiagnosticReport.Full report)) provider uri
        document_id).document? document_id).map
        (fun d => d.previous_diagnostic_id) =
      (editor.document? document_id).map
        (fun _ => report.full_document_diagnostic_report.result_id) := by
  have hf : ∀ d : Document,
      ({ d with
        previous_diagnostic_id :=
          report.full_document_diagnostic_report.result_id } :
        Document).id = d.id := fun d => rfl
  have hdq := handle_lsp_diagnostics_document_q editor provider uri none
    report.full_document_diagnostic_report.items document_id
  rw [handle_response_full_eq]
  cases hfind : editor.document? document_id with
  | none =>
    rw [hdq, hfind]
    rfl
  | some d =>
    rw [document_q_updateDocument_self _ document_id _ hf, hdq, hfind]
    rfl

theorem unchanged_report_cursor (editor : Editor)
    (report : RelatedUnchangedDocumentDiagnosticReport)
    (provider : DiagnosticProvider) (uri : Uri) (document_id : DocumentId) :
    ((handle_pull_diagnostics_response editor
        (DocumentDiagnosticReportResult.Report
          (DocumentDiagnosticReport.Unchanged report)) provider uri
        document_id).document? document_id).map
        (fun d => d.previous_diagnostic_id) =
      (editor.document? document_id).map (fun _ =>
        some report.unchanged_document_diagnostic_report.result_id) := by
  have hf : ∀ d : Document,
      ({ d with
        previous_diagnostic_id :=
          some report.unchanged_document_diagnostic_report.result_id } :
        Document).id = d.id := fun d => rfl
  rw [handle_response_unchanged_eq]
  cases hfind : editor.document? document_id with
  | none =>
    show (editor.document? document_id).map (fun d => d.previous_diagnostic_id) =
      Option.map (fun _ =>
        some report.unchanged_document_diagnostic_report.result_id) none
    rw [hfind]
    rfl
  | some d =>
    rw [document_q_updateDocument_self _ document_id _ hf, hfind]
    rfl

theorem reconcile_only_from_ok (doc_id : DocumentId) (s : Bool)
    (valid : Nat → Bool) :
    ∀ (items : List DrainItem) (i : Nat) (r : DocumentDiagnosticReportResult)
      (p : DiagnosticProvider) (u : Uri) (dd : DocumentId),
      Effect.Reconcile r p u dd ∈ drainLoop doc_id s valid i items →
      ∃ item ∈ items, item.result = RequestOutcome.ok r ∧ item.provider = p ∧
        item.uri = u ∧ dd = doc_id := by
  intro items
  induction items with
  | nil => intro i r p u dd h; simp [drainLoop] at h
  | cons item rest ih =>
    intro i r p u dd h
    cases hv : valid i with
    | false => simp [drainLoop, hv] at h
    | true =>
      cases hres : item.result with
      | ok result =>
        simp [drainLoop, hv, hres] at h
        rcases h with ⟨hr, hp2, hu, hdd⟩ | hmem
        · exact ⟨item, List.mem_cons_self item rest,
            by rw [hres, hr], hp2.symm, hu.symm, hdd⟩
        · obtain ⟨item', hmem', hprops⟩ := ih (i + 1) r p u dd hmem
          exact ⟨item', List.mem_cons_of_mem item hmem', hprops⟩
      | error err =>
        cases err with
        | Other message => simp [drainLoop, hv, hres] at h
        | Rpc error =>
          cases hd : error.data.bind parse_cancellation_data with
          | none =>
            simp [drainLoop, hv, hres, hd] at h
            obtain ⟨item', hmem', hprops⟩ := ih (i + 1) r p u dd h
            exact ⟨item', List.mem_cons_of_mem item hmem', hprops⟩
          | some parsed =>
            cases hrt : parsed.retrigger_request with
            | true =>
              simp [drainLoop, hv, hres, hd, hrt] at h
              obtain ⟨item', hmem', hprops⟩ := ih (i + 1) r p u dd h
              exact ⟨item', List.mem_cons_of_mem item hmem', hprops⟩
            | false =>
              simp [drainLoop, hv, hres, hd, hrt] at h
              obtain ⟨item', hmem', hprops⟩ := ih (i + 1) r p u dd h
              exact ⟨item', List.mem_cons_of_mem item hmem', hprops⟩

/-- A Full result with items [3] and result id "ra". -/
def fullResultA : DocumentDiagnosticReportResult :=
  DocumentDiagnosticReportResult.Report (DocumentDiagnosticReport.Full
    { related_documents := none,
      full_document_diagnostic_report := { result_id := some "ra", items := [3] } })

/-- A Full result with items [4] and result id "rb". -/
def fullResultB : DocumentDiagnosticReportResult :=
  DocumentDiagnosticReportResult.Report (DocumentDiagnosticReport.Full
    { related_documents := none,
      full_document_diagnostic_report := { result_id := some "rb", items := [4] } })

/-- Submission-ordered group element: provider A's successful Full result. -/
def drainItemA : DrainItem :=
  { result := RequestOutcome.ok fullResultA, provider := providerA,
    uri := "file:a.rs" }

/-- Submission-ordered group element: provider B's successful Full result,
for the same uri. -/
def drainItemB : DrainItem :=
  { result := RequestOutcome.ok fullResultB, provider := providerB,
    uri := "file:a.rs" }

/-- C1 counterexample: a Full report for `file:a.rs` carrying a
related-document Full sub-report for `file:b.rs` with items [7] is
reconciled, yet the store holds nothing at (`file:b.rs`, provider): the
sub-report was not applied with the Full rule, contradicting the claim. -/
theorem related_documents_counterexample :
    storeGet (handle_pull_diagnostics_response editorA
        (DocumentDiagnosticReportResult.Report (DocumentDiagnosticReport.Full
          { related_documents := some [("file:b.rs",
              DocumentDiagnosticReportKind.Full
                { result_id := some "rb", items := [7] })],
            full_document_diagnostic_report :=
              { result_id := some "ra", items := [3] } }))
        providerA "file:a.rs" 1).diagnostics ("file:b.rs", providerA) = none ∧
    (none : Option (List LspDiagnostic)) ≠ some [7] := by
  refine ⟨by decide, by decide⟩

/-- C1 amended: related-document sub-reports are ignored by the reconciler:
reconciling a report yields exactly the same editor state as reconciling the
same report with its `related_documents` field erased — for Full and
Unchanged reports alike — and a Full report's store mutation is confined to
the top-level (uri, provider) key: every other key, in particular any
related document's, is left untouched. -/
theorem related_documents_ignored (editor : Editor)
    (full_report : RelatedFullDocumentDiagnosticReport)
    (unchanged_report : RelatedUnchangedDocumentDiagnosticReport)
    (provider : DiagnosticProvider) (uri : Uri) (document_id : DocumentId)
    (k : Uri × DiagnosticProvider) (hk : k ≠ (uri, provider)) :
    handle_pull_diagnostics_response editor
        (DocumentDiagnosticReportResult.Report
          (DocumentDiagnosticReport.Full full_report)) provider uri
        document_id =
      handle_pull_diagnostics_response editor
        (DocumentDiagnosticReportResult.Report (DocumentDiagnosticReport.Full
          { full_report with related_documents := none })) provider uri
        document_id ∧
    handle_pull_diagnostics_response editor
        (DocumentDiagnosticReportResult.Report
          (DocumentDiagnosticReport.Unchanged unchanged_report)) provider uri
        document_id =
      handle_pull_diagnostics_response editor
        (DocumentDiagnosticReportResult.Report
          (DocumentDiagnosticReport.Unchanged
            { unchanged_report with related_documents := none })) provider uri
        document_id ∧
    storeGet (handle_pull_diagnostics_response editor
        (DocumentDiagnosticReportResult.Report
          (DocumentDiagnosticReport.Full full_report)) provider uri
        document_id).diagnostics k = storeGet editor.diagnostics k := by
  refine ⟨rfl, rfl, ?_⟩
  rw [handle_response_full_eq]
  cases editor.document? document_id with
  | none =>
    show storeGet (storeSet editor.diagnostics (uri, provider)
        full_report.full_document_diagnostic_report.items) k =
      storeGet editor.diagnostics k
    exact storeGet_storeSet_ne editor.diagnostics (uri, provider) k _ hk
  | some d =>
    show storeGet (storeSet editor.diagnostics (uri, provider)
        full_report.full_document_diagnostic_report.items) k =
      storeGet editor.diagnostics k
    exact storeGet_storeSet_ne editor.diagnostics (uri, provider) k _ hk

/-- A Full report carrying a related-document sub-report for `file:b.rs`. -/
def relFullReportC : RelatedFullDocumentDiagnosticReport :=
  { related_documents := some [("file:b.rs",
      DocumentDiagnosticReportKind.Full { result_id := some "rb", items := [7] })],
    full_document_diagnostic_report := { result_id := some "ra", items := [3] } }

/-- An Unchanged report carrying a related-document sub-report. -/
def relUnchangedReportC : RelatedUnchangedDocumentDiagnosticReport :=
  { related_documents := some [("file:b.rs",
      DocumentDiagnosticReportKind.Full { result_id := some "rb", items := [7] })],
    unchanged_document_diagnostic_report := { result_id := "ru" } }

/-- Witness for C1 amended at concrete reports and the key of another
document. -/
theorem related_documents_ignored_witness :
    (("file:b.rs", providerA) : Uri × DiagnosticProvider) ≠
      ("file:a.rs", providerA) ∧
    (handle_pull_diagnostics_response editorA
        (DocumentDiagnosticReportResult.Report
          (DocumentDiagnosticReport.Full relFullReportC)) providerA
        "file:a.rs" 1 =
      handle_pull_diagnostics_response editorA
        (DocumentDiagnosticReportResult.Report (DocumentDiagnosticReport.Full
          { relFullReportC with related_documents := none })) providerA
        "file:a.rs" 1 ∧
    handle_pull_diagnostics_response editorA
        (DocumentDiagnosticReportResult.Report
          (DocumentDiagnosticReport.Unchanged relUnchangedReportC)) providerA
        "file:a.rs" 1 =
      handle_pull_diagnostics_response editorA
        (DocumentDiagnosticReportResult.Report
          (DocumentDiagnosticReport.Unchanged
            { relUnchangedReportC with related_documents := none })) providerA
        "file:a.rs" 1 ∧
    storeGet (handle_pull_diagnostics_response editorA
        (DocumentDiagnosticReportResult.Report
          (DocumentDiagnosticReport.Full relFullReportC)) providerA
        "file:a.rs" 1).diagnostics ("file:b.rs", providerA) =
      storeGet editorA.diagnostics ("file:b.rs", providerA)) :=
  ⟨by decide,
   related_documents_ignored editorA relFullReportC relUnchangedReportC
    providerA "file:a.rs" 1 ("file:b.rs", providerA) (by decide)⟩

/-- C2 counterexample: before any response, both providers' requests for
document 1 carry the cursor `some "old"`; after provider A's accepted Full
response with result id "a", the request built for provider B carries
`some "a"` — provider A's accepted response changed the cursor used for
provider B's next request, contradicting the per-(document, provider)
claim. -/
theorem cursor_not_per_provider_counterexample :
    (build_diagnostic_requests docA false).map
        (fun req => (req.provider, req.previous_result_id)) =
      [(providerA, some "old"), (providerB, some "old")] ∧
    ((handle_pull_diagnostics_response editorA
        (DocumentDiagnosticReportResult.Report (DocumentDiagnosticReport.Full
          { related_documents := none,
            full_document_diagnostic_report :=
              { result_id := some "a", items := [3] } }))
        providerA "file:a.rs" 1).document? 1).map
        (fun d => (build_diagnostic_requests d false).map
          (fun req => (req.provider, req.previous_result_id))) =
      some [(providerA, some "a"), (providerB, some "a")] ∧
    (some "a" : Option String) ≠ some "old" := by
  refine ⟨by decide, by decide, by decide⟩

/-- C2 amended: the result cursor is kept per document, shared across
providers: every request built for a document carries the document's single
`previous_diagnostic_id`, whatever provider it targets; reconciling an
accepted Full or Unchanged response from any provider overwrites that
per-document cursor with the response's result id; errored or
cancellation-dropped responses produce no `Reconcile` effect — only `Ok`
results do — and the non-reconcile effects (logs, scheduled retries) leave
the editor, cursors included, untouched. -/
theorem cursor_per_document_shared (doc : Document) (s : Bool)
    (req : BuiltRequest) (hreq : req ∈ build_diagnostic_requests doc s)
    (editor : Editor) (full_report : RelatedFullDocumentDiagnosticReport)
    (unchanged_report : RelatedUnchangedDocumentDiagnosticReport)
    (provider : DiagnosticProvider) (uri : Uri) (document_id : DocumentId) :
    req.previous_result_id = doc.previous_diagnostic_id ∧
    ((handle_pull_diagnostics_response editor
        (DocumentDiagnosticReportResult.Report
          (DocumentDiagnosticReport.Full full_report)) provider uri
        document_id).document? document_id).map
        (fun d => d.previous_diagnostic_id) =
      (editor.document? document_id).map
        (fun _ => full_report.full_document_diagnostic_report.result_id) ∧
    ((handle_pull_diagnostics_response editor
        (DocumentDiagnosticReportResult.Report
          (DocumentDiagnosticReport.Unchanged unchanged_report)) provider uri
        document_id).document? document_id).map
        (fun d => d.previous_diagnostic_id) =
      (editor.document? document_id).map (fun _ =>
        some unchanged_report.unchanged_document_diagnostic_report.result_id) ∧
    (∀ (doc_id2 : DocumentId) (s2 : Bool) (valid : Nat → Bool)
      (items : List DrainItem) (i : Nat) (r : DocumentDiagnosticReportResult)
      (p : DiagnosticProvider) (u : Uri) (dd : DocumentId),
      Effect.Reconcile r p u dd ∈ drainLoop doc_id2 s2 valid i items →
      ∃ item ∈ items, item.result = RequestOutcome.ok r ∧ item.provider = p ∧
        item.uri = u ∧ dd = doc_id2) ∧
    (∀ m, applyEffect editor (Effect.LogError m) = editor) ∧
    (∀ delay dd s2, applyEffect editor (Effect.Retry delay dd s2) = editor) :=
  ⟨build_diagnostic_requests_cursor doc s req hreq,
   full_report_cursor editor full_report provider uri document_id,
   unchanged_report_cursor editor unchanged_report provider uri document_id,
   fun doc_id2 s2 valid => reconcile_only_from_ok doc_id2 s2 valid,
   fun _ => rfl,
   fun _ _ _ => rfl⟩

/-- The request built for provider A on `docA` before any response. -/
def builtRequestA : BuiltRequest :=
  { previous_result_id := some "old", provider := providerA,
    uri := "file:a.rs" }

/-- Witness for C2 amended at document 1's first built request and
concrete reports. -/
theorem cursor_per_document_shared_witness :
    builtRequestA ∈ build_diagnostic_requests docA false ∧
    (builtRequestA.previous_result_id = docA.previous_diagnostic_id ∧
    ((handle_pull_diagnostics_response editorA
        (DocumentDiagnosticReportResult.Report
          (DocumentDiagnosticReport.Full relFullReportC)) providerA
        "file:a.rs" 1).document? 1).map
        (fun d => d.previous_diagnostic_id) =
      (editorA.document? 1).map
        (fun _ => relFullReportC.full_document_diagnostic_report.result_id) ∧
    ((handle_pull_diagnostics_response editorA
        (DocumentDiagnosticReportResult.Report
          (DocumentDiagnosticReport.Unchanged relUnchangedReportC)) providerA
        "file:a.rs" 1).document? 1).map
        (fun d => d.previous_diagnostic_id) =
      (editorA.document? 1).map (fun _ =>
        some relUnchangedReportC.unchanged_document_diagnostic_report.result_id) ∧
    (∀ (doc_id2 : DocumentId) (s2 : Bool) (valid : Nat → Bool)
      (items : List DrainItem) (i : Nat) (r : DocumentDiagnosticReportResult)
      (p : DiagnosticProvider) (u : Uri) (dd : DocumentId),
      Effect.Reconcile r p u dd ∈ drainLoop doc_id2 s2 valid i items →
      ∃ item ∈ items, item.result = RequestOutcome.ok r ∧ item.provider = p ∧
        item.uri = u ∧ dd = doc_id2) ∧
    (∀ m, applyEffect editorA (Effect.LogError m) = editorA) ∧
    (∀ delay dd s2, applyEffect editorA (Effect.Retry delay dd s2) = editorA)) :=
  ⟨by decide,
   cursor_per_document_shared docA false builtRequestA (by decide) editorA
    relFullReportC relUnchangedReportC providerA "file:a.rs" 1⟩

/-- C3 counterexample: providers A and B, submitted in that order, both
report for `file:a.rs`; after the whole group drains and reconciles, the
earlier-submitted provider A's entry still holds its own items [3] — the
later-submitted provider B did not overwrite it (B's report lives at its
own (uri, provider) key), contradicting "the provider submitted later
deterministically overwrites the one submitted earlier". -/
theorem later_provider_overwrite_counterexample :
    storeGet (applyEffects editorA (drainLoop 1 false (fun _ => true) 0
        [drainItemA, drainItemB])).diagnostics ("file:a.rs", providerA) =
      some [3] ∧
    storeGet (applyEffects editorA (drainLoop 1 false (fun _ => true) 0
        [drainItemA, drainItemB])).diagnostics ("file:a.rs", providerB) =
      some [4] ∧
    (some [3] : Option (List LspDiagnostic)) ≠ some [4] := by
  refine ⟨by decide, by decide, by decide⟩

/-- C3 amended: within one request group all built requests run
concurrently, but their results are drained and reconciled one at a time in
submission order, not completion order: for every completion order (every
permutation of the submission indices) the drained sequence, and hence the
final editor state, equals that of processing the group in submission order
— the outcome is deterministic regardless of which response completed first.
However, two distinct providers reporting for the same uri write to
distinct (uri, provider) store entries: the later-submitted provider does
not overwrite the earlier-submitted one — concretely, with completion order
[1, 0] (B finishes first) both providers' reports survive at their own
keys. -/
theorem ordered_drain_deterministic (editor : Editor) (doc_id : DocumentId)
    (s : Bool) (valid : Nat → Bool) (items : List DrainItem)
    (completions : List Nat)
    (h : completions.Perm (List.range items.length)) :
    runGroup doc_id s valid items completions =
      drainLoop doc_id s valid 0 items ∧
    applyEffects editor (runGroup doc_id s valid items completions) =
      applyEffects editor (drainLoop doc_id s valid 0 items) ∧
    storeGet (applyEffects editorA (runGroup 1 false (fun _ => true)
        [drainItemA, drainItemB] [1, 0])).diagnostics
      ("file:a.rs", providerA) = some [3] ∧
    storeGet (applyEffects editorA (runGroup 1 false (fun _ => true)
        [drainItemA, drainItemB] [1, 0])).diagnostics
      ("file:a.rs", providerB) = some [4] := by
  have hsub := runGroup_submission_order doc_id s valid items completions h
  refine ⟨hsub, by rw [hsub], by decide, by decide⟩

/-- Witness for C3 amended: a two-element group with reversed completion
order. -/
theorem ordered_drain_deterministic_witness :
    ([1, 0] : List Nat).Perm
      (List.range ([drainItemA, drainItemB] : List DrainItem).length) ∧
    (runGroup 1 false (fun _ => true) [drainItemA, drainItemB] [1, 0] =
      drainLoop 1 false (fun _ => true) 0 [drainItemA, drainItemB] ∧
    applyEffects editorA
        (runGroup 1 false (fun _ => true) [drainItemA, drainItemB] [1, 0]) =
      applyEffects editorA
        (drainLoop 1 false (fun _ => true) 0 [drainItemA, drainItemB]) ∧
    storeGet (applyEffects editorA (runGroup 1 false (fun _ => true)
        [drainItemA, drainItemB] [1, 0])).diagnostics
      ("file:a.rs", providerA) = some [3] ∧
    storeGet (applyEffects editorA (runGroup 1 false (fun _ => true)
        [drainItemA, drainItemB] [1, 0])).diagnostics
      ("file:a.rs", providerB) = some [4]) :=
  ⟨by decide,
   ordered_drain_deterministic editorA 1 false (fun _ => true)
    [drainItemA, drainItemB] [1, 0] (by decide)⟩
